import Mathlib

/-!
Verification of the lab-report extraction pipeline of the
PersonalHealthAssistant repository.

The development shallowly embeds the pipeline code:
  - `src/backend/main.py`: `upload_report`, `parse_report`,
    `extract_text_from_file`, `generate_report_json`;
  - `src/LLM.py`: `parse_lab_report`;
  - `src/ocr.py`: `extract_text_from_image`.

External effects are made explicit: the outcome of the single
`requests.post` call to the text-generation service is an input
(`SvcOutcome`), and the behaviour of the file system / Pillow /
Tesseract during OCR is an input (`OcrEnv`).  The Python `json`
standard library (`json.loads` / `json.dumps`, and `response.json()`
which parses the body the same way) is modelled by an executable
JSON value type `Json` with a printer `dumps` and a parser
`parseJson`; JSON numbers are restricted to integers, which covers
every value appearing in this development.
-/

/-- A JSON document value (the result of Python `json.loads`), with
numbers restricted to integers. Objects keep their key order, as
Python dicts do. -/
inductive Json where
  | null : Json
  | bool (b : Bool) : Json
  | num (n : Int) : Json
  | str (s : String) : Json
  | arr (xs : List Json) : Json
  | obj (kvs : List (String × Json)) : Json

/-- The opening-brace character, written by code point to keep
brace characters out of the source text. -/
def lbrace : Char := Char.ofNat 123

/-- The closing-brace character. -/
def rbrace : Char := Char.ofNat 125

/-- JSON insignificant whitespace (also the characters Python
`str.strip()` removes that occur in this development). -/
def isWsChar (c : Char) : Bool := c = ' ' || c = '\n' || c = '\t' || c = '\r'

def skipWs : List Char → List Char
  | [] => []
  | c :: cs => if isWsChar c then skipWs cs else c :: cs

def escapeChar (c : Char) : String :=
  if c = '"' then "\\\"" else if c = '\\' then "\\\\"
  else if c = '\n' then "\\n" else if c = '\t' then "\\t" else if c = '\r' then "\\r"
  else String.singleton c

def escapeStr (s : String) : String := String.join (s.data.map escapeChar)

mutual
/-- `json.dumps` with Python's default separators (", " and ": "). -/
def dumps : Json → String
  | Json.null => "null"
  | Json.bool true => "true"
  | Json.bool false => "false"
  | Json.num n => toString n
  | Json.str s => "\"" ++ escapeStr s ++ "\""
  | Json.arr xs => "[" ++ dumpsElems xs ++ "]"
  | Json.obj kvs => String.singleton lbrace ++ dumpsMembers kvs ++ String.singleton rbrace

def dumpsElems : List Json → String
  | [] => ""
  | [x] => dumps x
  | x :: y :: xs => dumps x ++ ", " ++ dumpsElems (y :: xs)

def dumpsMembers : List (String × Json) → String
  | [] => ""
  | [(k, v)] => "\"" ++ escapeStr k ++ "\": " ++ dumps v
  | (k, v) :: w :: kvs => "\"" ++ escapeStr k ++ "\": " ++ dumps v ++ ", " ++ dumpsMembers (w :: kvs)
end

def parseStringBody : List Char → Option (String × List Char)
  | [] => none
  | c :: cs =>
    if c = '"' then some ("", cs)
    else if c = '\\' then
      match cs with
      | [] => none
      | e :: cs2 =>
        let esc : Option Char :=
          if e = '"' then some '"'
          else if e = '\\' then some '\\'
          else if e = '/' then some '/'
          else if e = 'n' then some '\n'
          else if e = 't' then some '\t'
          else if e = 'r' then some '\r'
          else none
        match esc with
        | none => none
        | some ch =>
          match parseStringBody cs2 with
          | some (s, r) => some (String.singleton ch ++ s, r)
          | none => none
    else
      match parseStringBody cs with
      | some (s, r) => some (String.singleton c ++ s, r)
      | none => none

def takeDigits : List Char → (List Char × List Char)
  | [] => ([], [])
  | c :: cs =>
    if c.isDigit then
      let (d, r) := takeDigits cs
      (c :: d, r)
    else ([], c :: cs)

def digitsToNat (ds : List Char) : Nat := ds.foldl (fun a c => a * 10 + (c.toNat - 48)) 0

mutual
def parseValue : Nat → List Char → Option (Json × List Char)
  | 0, _ => none
  | Nat.succ fuel, cs =>
    match skipWs cs with
    | [] => none
    | c :: rest =>
      if c = '"' then
        match parseStringBody rest with
        | some (s, r) => some (Json.str s, r)
        | none => none
      else if c = '[' then
        match skipWs rest with
        | ']' :: r => some (Json.arr [], r)
        | _ =>
          match parseElems fuel rest with
          | some (xs, r) => some (Json.arr xs, r)
          | none => none
      else if c = lbrace then
        match skipWs rest with
        | c2 :: r =>
          if c2 = rbrace then some (Json.obj [], r)
          else
            match parseMembers fuel rest with
            | some (kvs, r2) => some (Json.obj kvs, r2)
            | none => none
        | [] => none
      else if c = '-' then
        match takeDigits rest with
        | ([], _) => none
        | (ds, r) => some (Json.num (-(Int.ofNat (digitsToNat ds))), r)
      else if c.isDigit then
        match takeDigits (c :: rest) with
        | (ds, r) => some (Json.num (Int.ofNat (digitsToNat ds)), r)
      else
        match c :: rest with
        | 'n' :: 'u' :: 'l' :: 'l' :: r => some (Json.null, r)
        | 't' :: 'r' :: 'u' :: 'e' :: r => some (Json.bool true, r)
        | 'f' :: 'a' :: 'l' :: 's' :: 'e' :: r => some (Json.bool false, r)
        | _ => none

def parseElems : Nat → List Char → Option (List Json × List Char)
  | 0, _ => none
  | Nat.succ fuel, cs =>
    match parseValue fuel cs with
    | none => none
    | some (v, r) =>
      match skipWs r with
      | ',' :: r2 =>
        match parseElems fuel r2 with
        | some (xs, r3) => some (v :: xs, r3)
        | none => none
      | ']' :: r2 => some ([v], r2)
      | _ => none

def parseMembers : Nat → List Char → Option (List (String × Json) × List Char)
  | 0, _ => none
  | Nat.succ fuel, cs =>
    match skipWs cs with
    | [] => none
    | c :: rest =>
      if c = '"' then
        match parseStringBody rest with
        | none => none
        | some (k, r) =>
          match skipWs r with
          | ':' :: r2 =>
            match parseValue fuel r2 with
            | none => none
            | some (v, r3) =>
              match skipWs r3 with
              | ',' :: r4 =>
                match parseMembers fuel r4 with
                | some (kvs, r5) => some ((k, v) :: kvs, r5)
                | none => none
              | c5 :: r4 => if c5 = rbrace then some ([(k, v)], r4) else none
              | [] => none
          | _ => none
      else none
end

/-- Python `json.loads` (and `requests.Response.json`, which parses the
body the same way): `some` on a complete JSON document, `none` when the
library would raise `json.JSONDecodeError`. -/
def parseJson (s : String) : Option Json :=
  match parseValue (2 * s.length + 4) (s.data) with
  | some (v, rest) => if (skipWs rest).isEmpty then some v else none
  | none => none

/-- Python truthiness of a parsed JSON value (`None`, `False`, `0`,
`""`, `[]` and the empty dict are falsy). -/
def pyTruthy : Json → Bool
  | Json.null => false
  | Json.bool b => b
  | Json.num n => n != 0
  | Json.str s => !s.data.isEmpty
  | Json.arr xs => !xs.isEmpty
  | Json.obj kvs => !kvs.isEmpty

/-- Python `str.strip()` restricted to the whitespace characters of
`isWsChar`. -/
def pyStrip (s : String) : String :=
  String.mk (((s.data.dropWhile (fun c => isWsChar c)).reverse.dropWhile (fun c => isWsChar c)).reverse)

/-- Python `str.startswith`. -/
def pyStartsWith (s pre : String) : Bool := s.data.take pre.data.length == pre.data

/-- Outcome of one Python subscript operation `v[k]` / `v[0]`:
the value, or the exception class the operation raises. -/
inductive Lookup where
  | found (v : Json) : Lookup
  | keyErr : Lookup
  | idxErr : Lookup
  | typeErr : Lookup

/-- Python `v[k]` for a string key `k`: a dict yields the entry or
raises `KeyError`; every other JSON value raises `TypeError`. -/
def jsonGet (v : Json) (k : String) : Lookup :=
  match v with
  | Json.obj kvs =>
    match kvs.lookup k with
    | some x => Lookup.found x
    | none => Lookup.keyErr
  | _ => Lookup.typeErr

/-- Python `v[0]`: a list yields its head or raises `IndexError`; a
dict raises `KeyError` (JSON object keys are strings, so the integer
key `0` is never present); a string yields its first character as a
one-character string or raises `IndexError`; numbers, booleans and
`None` raise `TypeError`. -/
def jsonIndexZero (v : Json) : Lookup :=
  match v with
  | Json.arr [] => Lookup.idxErr
  | Json.arr (x :: _) => Lookup.found x
  | Json.obj _ => Lookup.keyErr
  | Json.str s =>
    match s.data with
    | [] => Lookup.idxErr
    | c :: _ => Lookup.found (Json.str (String.singleton c))
  | _ => Lookup.typeErr

def bindLookup (l : Lookup) (f : Json → Lookup) : Lookup :=
  match l with
  | Lookup.found v => f v
  | Lookup.keyErr => Lookup.keyErr
  | Lookup.idxErr => Lookup.idxErr
  | Lookup.typeErr => Lookup.typeErr

/-- The subscript chain
`response_data["candidates"][0]["content"]["parts"][0]["text"]`
from `generate_report_json` / `parse_lab_report`. -/
def candidateText (doc : Json) : Lookup :=
  bindLookup (jsonGet doc "candidates") (fun a =>
  bindLookup (jsonIndexZero a) (fun c0 =>
  bindLookup (jsonGet c0 "content") (fun ct =>
  bindLookup (jsonGet ct "parts") (fun ps =>
  bindLookup (jsonIndexZero ps) (fun p0 =>
  jsonGet p0 "text")))))

/-- The fixed system instruction string of
`backend/main.py:generate_report_json` and `LLM.py:parse_lab_report`
(a static asset; the indentation of the Python triple-quoted literal
is not reproduced). -/
def systemInstructionText : String :=
  "You are an expert at parsing medical lab reports and formatting the data into JSON.\n" ++
  "Your task is to extract all the key information from the provided lab report text and format it into a single JSON object.\n" ++
  "Strictly follow these rules:\n" ++
  "1. The final output MUST be a single JSON object.\n" ++
  "2. The JSON object MUST have the following top-level keys:\n" ++
  "- \"reportDetails\": An object containing details like \"regNo\", \"registeredOn\", \"collectedOn\", \"receivedOn\", and \"reportedOn\".\n" ++
  "- \"patientDetails\": An object with \"name\", \"age\" (as a number), and \"sex\".\n" ++
  "- \"labDetails\": An object with \"labName\", \"labIncharge\" (an object with name and qualification), and \"pathologist\" (an object with name and qualification).\n" ++
  "- \"testResults\": An array of objects. Each object in this array must contain \"testName\", \"value\", \"unit\", and \"referenceRange\".\n" ++
  "- \"clinicalNotes\": A string containing the clinical notes.\n" ++
  "- \"abnormalParametersNotes\": A string for notes on abnormal parameters.\n" ++
  "3. Extract all fields and populate the JSON object.\n" ++
  "4. For test results, parse each line in the \"HAEMATOLOGY\" section into a separate object within the \"testResults\" array.\n" ++
  "5. Clean the data. For example, remove extra words like \"Lo\" and \"H_\" from the value field and place them in the test name, if necessary."

/-- The request payload built by `generate_report_json` /
`parse_lab_report`: the extracted report text under `contents`, the
fixed instruction under `systemInstruction`, and a JSON response MIME
type. This is the only place the report text is used; the service's
reply is an independent input. -/
def requestPayload (reportText : String) : Json :=
  Json.obj [
    ("contents", Json.arr [Json.obj [("parts", Json.arr [Json.obj [("text", Json.str reportText)]])]]),
    ("systemInstruction", Json.obj [("parts", Json.arr [Json.obj [("text", Json.str systemInstructionText)]])]),
    ("generationConfig", Json.obj [("responseMimeType", Json.str "application/json")])]

/-- Outcome of the single `requests.post` call: either the library
raised a `requests.exceptions.RequestException` (connection failure,
timeout, ...), or a response arrived with a status code and a body. -/
inductive SvcOutcome where
  | exn (msg : String) : SvcOutcome
  | resp (status : Nat) (body : String) : SvcOutcome

/-- Result of running `generate_report_json` / `parse_lab_report`:
a normal Python return value (`None` on every handled failure), or an
exception that none of the two `except` clauses catches (a `TypeError`
raised by subscripting a non-container or by `json.loads` on a
non-string). -/
inductive GenResult where
  | ret (v : Option Json) : GenResult
  | uncaught : GenResult

/-- Shallow embedding of `backend/main.py:generate_report_json`
(also the body of `LLM.py:parse_lab_report`, which is identical
except for the missing `timeout` argument of `requests.post`):

  - `requests.post` raising → caught by `except RequestException` → `None`;
  - `response.raise_for_status()` raises `HTTPError` (a
    `RequestException`) exactly when `400 ≤ status ≤ 599` → `None`;
  - `response.json()` failing → caught `JSONDecodeError` → `None`;
  - the `candidates`/`parts` subscript chain raising `KeyError` or
    `IndexError` → caught → `None`; raising `TypeError` → uncaught;
  - `json.loads` of the candidate text failing → caught → `None`;
    applied to a non-string → uncaught `TypeError`;
  - otherwise the parsed inner value is returned as-is: no check of
    the six top-level schema keys, no normalisation of `testResults`. -/
def generate_report_json (reportText : String) (svc : SvcOutcome) : GenResult :=
  let _payload := requestPayload reportText
  match svc with
  | SvcOutcome.exn _ => GenResult.ret none
  | SvcOutcome.resp status body =>
    if 400 ≤ status ∧ status ≤ 599 then GenResult.ret none
    else
      match parseJson body with
      | none => GenResult.ret none
      | some doc =>
        match candidateText doc with
        | Lookup.keyErr => GenResult.ret none
        | Lookup.idxErr => GenResult.ret none
        | Lookup.typeErr => GenResult.uncaught
        | Lookup.found (Json.str raw) =>
          match parseJson raw with
          | none => GenResult.ret none
          | some v => GenResult.ret (some v)
        | Lookup.found _ => GenResult.uncaught

/-- `LLM.py:parse_lab_report`: same body as `generate_report_json`
(the two differ only in the `requests.post` keyword arguments, see
the timeout constants below). -/
def parse_lab_report (reportText : String) (svc : SvcOutcome) : GenResult :=
  generate_report_json reportText svc

/-- The `timeout` keyword argument of the `requests.post` call in
`backend/main.py:generate_report_json`: `timeout=30`. -/
def generate_report_json_timeout : Option Nat := some 30

/-- The `timeout` keyword argument of the `requests.post` call in
`LLM.py:parse_lab_report`: the call passes no timeout, so the request
has no upper bound. -/
def parse_lab_report_timeout : Option Nat := none

/- ### OCR extraction (`src/ocr.py` and its copy in `backend/main.py`) -/

/-- Behaviour of the file system, Pillow and Tesseract during one
OCR call: whether the path exists, whether `Image.open` succeeds
(and the exception message when it does not), whether the Tesseract
binary is present (`pytesseract` raises `TesseractNotFoundError`
exactly when it is not), whether `image_to_string` raises some other
exception, and the text it recognises otherwise. -/
structure OcrEnv where
  fileExists : Bool
  imageOpens : Bool
  openErrMsg : String
  engineAvailable : Bool
  ocrError : Option String
  ocrText : String

/-- The error string `extract_text_from_image` returns when
Tesseract is not installed (the `except TesseractNotFoundError`
branch). -/
def engineUnavailableMsg : String :=
  "Error: Tesseract is not installed or not in your PATH. Please install it."

/-- The error string returned when the image file does not exist. -/
def fileNotFoundMsg (p : String) : String :=
  "Error: Image file not found at \x27" ++ p ++ "\x27."

/-- The error string of the generic `except Exception` branch. -/
def unexpectedMsg (e : String) : String :=
  "An unexpected error occurred: " ++ e

/-- Shallow embedding of `ocr.py:extract_text_from_image`:
check `os.path.exists`; `Image.open` (a failure there is a generic
exception, caught by the last branch even when Tesseract is also
missing); `pytesseract.image_to_string`, whose
`TesseractNotFoundError` is caught by its own branch before the
generic one; on success the recognised text is returned `.strip()`ed.
All failures are returned as strings, not raised. -/
def extract_text_from_image (imagePath : String) (env : OcrEnv) : String :=
  if !env.fileExists then fileNotFoundMsg imagePath
  else if !env.imageOpens then unexpectedMsg env.openErrMsg
  else if !env.engineAvailable then engineUnavailableMsg
  else
    match env.ocrError with
    | some e => unexpectedMsg e
    | none => pyStrip env.ocrText

/-- `backend/main.py:extract_text_from_file` is a line-for-line copy
of `ocr.py:extract_text_from_image`. -/
def extract_text_from_file : String → OcrEnv → String :=
  extract_text_from_image

/- ### The upload endpoint (`backend/main.py:upload_report`) -/

/-- The form fields of `POST /reports/upload`, plus whether a file
part was attached. -/
structure UploadForm where
  memberId : Int
  reportDate : String
  reportType : String
  labName : Option String
  doctor : Option String
  hasFile : Bool

/-- The `Report` database row the endpoint persists (the columns the
handler writes; `id` is database-generated and out of scope). -/
structure ReportRow where
  memberId : Int
  date : String
  reportType : String
  lab : Option String
  doctor : Option String
  filePath : String
  extractedText : String
  reportJson : Option String
  parsedCol : Option String
  notes : Option String

/-- The `ReportOut` response model returned to the HTTP caller.
Note it has `parsed` but no field for the raw extracted text. -/
structure ReportOut where
  memberId : Int
  date : String
  reportType : String
  lab : Option String
  doctor : Option String
  parsed : Option Json
  notes : Option String
  filePath : Option String

/-- Result of one call of the endpoint: an `HTTPException`, an
exception that escapes the handler, or a persisted row together with
the response body. -/
inductive UploadResult where
  | httpError (status : Nat) (detail : String) : UploadResult
  | uncaught : UploadResult
  | ok (row : ReportRow) (res : ReportOut) : UploadResult

/-- The guard `if extracted_text and not extracted_text.startswith("Error")`
that decides whether `upload_report` invokes `generate_report_json`. -/
def structuringCondition (t : String) : Bool :=
  !t.data.isEmpty && !(pyStartsWith t "Error")

/-- Shallow embedding of `backend/main.py:upload_report`: reject a
missing file with HTTP 400; run OCR; run `generate_report_json`
exactly when `structuringCondition` holds on the extracted text;
persist a row with the extracted text verbatim and
`report_json = json.dumps(parsed_json) if parsed_json else None`
(Python truthiness, so `None` and falsy values store `NULL`); answer
with a `ReportOut` whose `parsed` field re-loads the stored JSON
string and which carries no extracted text. -/
def upload_report (form : UploadForm) (filePath : String) (env : OcrEnv)
    (svc : SvcOutcome) : UploadResult :=
  if !form.hasFile then UploadResult.httpError 400 "No file uploaded"
  else
    let extracted := extract_text_from_file filePath env
    let genRes : GenResult :=
      if structuringCondition extracted then generate_report_json extracted svc
      else GenResult.ret none
    match genRes with
    | GenResult.uncaught => UploadResult.uncaught
    | GenResult.ret parsedJson =>
      let reportJson : Option String :=
        match parsedJson with
        | some j => if pyTruthy j then some (dumps j) else none
        | none => none
      let row : ReportRow :=
        { memberId := form.memberId, date := form.reportDate,
          reportType := form.reportType, lab := form.labName,
          doctor := form.doctor, filePath := filePath,
          extractedText := extracted, reportJson := reportJson,
          parsedCol := none, notes := none }
      let out : ReportOut :=
        { memberId := row.memberId, date := row.date,
          reportType := row.reportType, lab := row.lab,
          doctor := row.doctor,
          parsed := (match row.reportJson with
            | some s => if !s.data.isEmpty then parseJson s else none
            | none => none),
          notes := row.notes, filePath := some row.filePath }
      UploadResult.ok row out

/-- The hardcoded string `backend/main.py:parse_report` writes into
the `parsed` column. -/
def mockParsedValues : String :=
  "\x7b\"Glucose\": 95, \"Cholesterol\": 180, \"TSH\": 2.1\x7d"

/-- Shallow embedding of `backend/main.py:parse_report` (the
`POST /reports/id/parse` endpoint): it performs no OCR and no
structuring call; it overwrites the `parsed` column with a hardcoded
mock value and sets a mock note, leaving the other columns alone. -/
def parse_report (r : ReportRow) : ReportRow :=
  { r with parsedCol := some mockParsedValues,
           notes := some "AI: Mock parsed values" }

/- ### The Report Schema (spec-modelled)

The repository has no `StructuredReport` type of its own: the schema
exists only as the system-instruction text above and as prose in the
specification.  The following definitions are therefore modelled from
the specification's words. -/

/-- Modelled from the spec: a person with name and qualification
(`labIncharge` / `pathologist` in `labDetails`); both fields optional
strings, absent information represented as null. -/
structure RolePerson where
  name : Option String
  qualification : Option String

/-- Modelled from the spec: `patientDetails` — name (string), age
(integer, nonnegative, optional), sex (string, optional). -/
structure PatientDetails where
  name : Option String
  age : Option Nat
  sex : Option String

/-- Modelled from the spec: `labDetails` — lab name, lab-in-charge
and pathologist, all optional. -/
structure LabDetails where
  labName : Option String
  labIncharge : RolePerson
  pathologist : RolePerson

/-- Modelled from the spec: one `testResults` entry —
testName, value, unit, referenceRange, each a string. -/
structure TestResult where
  testName : String
  value : String
  unit : String
  referenceRange : String

/-- Modelled from the spec: the `StructuredReport` record with the six
top-level components of the Report Schema. -/
structure StructuredReport where
  reportDetails : List (String × String)
  patientDetails : PatientDetails
  labDetails : LabDetails
  testResults : List TestResult
  clinicalNotes : String
  abnormalParametersNotes : String

def encodeOptStr : Option String → Json
  | some s => Json.str s
  | none => Json.null

def decodeOptStr : Json → Option (Option String)
  | Json.str s => some (some s)
  | Json.null => some none
  | _ => none

def encodeRole (r : RolePerson) : Json :=
  Json.obj [("name", encodeOptStr r.name), ("qualification", encodeOptStr r.qualification)]

def decodeRole (v : Json) : Option RolePerson :=
  match v with
  | Json.obj kvs =>
    match kvs.lookup "name", kvs.lookup "qualification" with
    | some jn, some jq =>
      match decodeOptStr jn, decodeOptStr jq with
      | some n, some q => some ⟨n, q⟩
      | _, _ => none
    | _, _ => none
  | _ => none

def encodeAge : Option Nat → Json
  | some a => Json.num (Int.ofNat a)
  | none => Json.null

def decodeAge : Json → Option (Option Nat)
  | Json.num (Int.ofNat m) => some (some m)
  | Json.null => some none
  | _ => none

def encodePatient (p : PatientDetails) : Json :=
  Json.obj [("name", encodeOptStr p.name), ("age", encodeAge p.age), ("sex", encodeOptStr p.sex)]

def decodePatient (v : Json) : Option PatientDetails :=
  match v with
  | Json.obj kvs =>
    match kvs.lookup "name", kvs.lookup "age", kvs.lookup "sex" with
    | some jn, some ja, some js =>
      match decodeOptStr jn, decodeAge ja, decodeOptStr js with
      | some n, some a, some s => some ⟨n, a, s⟩
      | _, _, _ => none
    | _, _, _ => none
  | _ => none

def encodeLab (l : LabDetails) : Json :=
  Json.obj [("labName", encodeOptStr l.labName), ("labIncharge", encodeRole l.labIncharge),
            ("pathologist", encodeRole l.pathologist)]

def decodeLab (v : Json) : Option LabDetails :=
  match v with
  | Json.obj kvs =>
    match kvs.lookup "labName", kvs.lookup "labIncharge", kvs.lookup "pathologist" with
    | some jn, some ji, some jp =>
      match decodeOptStr jn, decodeRole ji, decodeRole jp with
      | some n, some i, some p => some ⟨n, i, p⟩
      | _, _, _ => none
    | _, _, _ => none
  | _ => none

def encodeTest (t : TestResult) : Json :=
  Json.obj [("testName", Json.str t.testName), ("value", Json.str t.value),
            ("unit", Json.str t.unit), ("referenceRange", Json.str t.referenceRange)]

def decodeTest (v : Json) : Option TestResult :=
  match v with
  | Json.obj kvs =>
    match kvs.lookup "testName", kvs.lookup "value", kvs.lookup "unit", kvs.lookup "referenceRange" with
    | some (Json.str n), some (Json.str va), some (Json.str u), some (Json.str r) =>
      some ⟨n, va, u, r⟩
    | _, _, _, _ => none
  | _ => none

def decodeTestList : List Json → Option (List TestResult)
  | [] => some []
  | x :: xs =>
    match decodeTest x, decodeTestList xs with
    | some t, some ts => some (t :: ts)
    | _, _ => none

def encodeKVs (l : List (String × String)) : Json :=
  Json.obj (l.map (fun kv => (kv.1, Json.str kv.2)))

def decodeKVList : List (String × Json) → Option (List (String × String))
  | [] => some []
  | (k, Json.str s) :: kvs =>
    match decodeKVList kvs with
    | some l => some ((k, s) :: l)
    | none => none
  | _ => none

def decodeKVs : Json → Option (List (String × String))
  | Json.obj kvs => decodeKVList kvs
  | _ => none

def decodeStr : Json → Option String
  | Json.str s => some s
  | _ => none

/-- Modelled from the spec: encoding a `StructuredReport` to its wire
JSON — an object with exactly the six required top-level keys. -/
def encodeReport (r : StructuredReport) : Json :=
  Json.obj [
    ("reportDetails", encodeKVs r.reportDetails),
    ("patientDetails", encodePatient r.patientDetails),
    ("labDetails", encodeLab r.labDetails),
    ("testResults", Json.arr (r.testResults.map encodeTest)),
    ("clinicalNotes", Json.str r.clinicalNotes),
    ("abnormalParametersNotes", Json.str r.abnormalParametersNotes)]

/-- Modelled from the spec: decoding the wire JSON — each of the six
required top-level keys must be present (a missing key fails); keys
beyond the six are ignored. -/
def decodeReport (v : Json) : Option StructuredReport :=
  match v with
  | Json.obj kvs =>
    match kvs.lookup "reportDetails", kvs.lookup "patientDetails", kvs.lookup "labDetails",
          kvs.lookup "testResults", kvs.lookup "clinicalNotes", kvs.lookup "abnormalParametersNotes" with
    | some ja, some jb, some jc, some jd, some je, some jf =>
      match decodeKVs ja, decodePatient jb, decodeLab jc,
            (match jd with | Json.arr xs => decodeTestList xs | _ => none),
            decodeStr je, decodeStr jf with
      | some ra, some rb, some rc, some rd, some re, some rf =>
        some ⟨ra, rb, rc, rd, re, rf⟩
      | _, _, _, _, _, _ => none
    | _, _, _, _, _, _ => none
  | _ => none

/- ### Auxiliary observers and concrete test data -/

/-- The row persisted by a successful run of the upload endpoint
(`none` when the endpoint raised instead). -/
def uploadRow : UploadResult → Option ReportRow
  | UploadResult.ok row _ => some row
  | _ => none

/-- Character of a string at a position, as a total observer. -/
def charAt (s : String) (i : Nat) : Option Char := (s.data.drop i).head?

/-- Number of physical lines of a string. -/
def lineCount (s : String) : Nat := (s.data.filter (fun c => c = '\n')).length + 1

/-- The `testResults` entry list of a structured payload, when present. -/
def testResultsOf (v : Json) : Option (List Json) :=
  match jsonGet v "testResults" with
  | Lookup.found (Json.arr xs) => some xs
  | _ => none

/-- The `value` field of the first `testResults` entry of a payload. -/
def firstTestValue (v : Json) : Option Json :=
  match testResultsOf v with
  | some (e :: _) =>
    (match jsonGet e "value" with
     | Lookup.found x => some x
     | _ => none)
  | _ => none

/-- The response document shape of the text-generation service that the
subscript chain of `generate_report_json` expects: the generated text
sits at `candidates[0].content.parts[0].text`. -/
def geminiEnvelope (innerText : String) : Json :=
  Json.obj [("candidates", Json.arr [Json.obj [("content",
    Json.obj [("parts", Json.arr [Json.obj [("text", Json.str innerText)]])])]])]

/-- A well-formed envelope whose body lacks the `candidates` key. -/
def noCandidatesBody : String := dumps (Json.obj [("promptFeedback", Json.str "blocked")])

/-- A well-formed envelope whose generated text is not JSON. -/
def proseInnerBody : String := dumps (geminiEnvelope "The model replied with plain prose")

/-- An inner payload missing all six required top-level keys. -/
def missingKeysPayload : Json := Json.obj [("foo", Json.str "bar")]

/-- Service reply delivering `missingKeysPayload`. -/
def missingKeysBody : String := dumps (geminiEnvelope (dumps missingKeysPayload))

/-- A structured `testResults` entry as the service is told to emit. -/
def mkTestEntry (n v u r : String) : Json :=
  Json.obj [("testName", Json.str n), ("value", Json.str v),
            ("unit", Json.str u), ("referenceRange", Json.str r)]

def testLine1 : String := "HEMOGLOBIN 15 g/dl 13-17"

def testLine2 : String := "EOSINOPHILS 1 % 1-6"

/-- An extracted text with two recognizable NAME VALUE UNIT RANGE lines. -/
def twoLineText : String := testLine1 ++ "\n" ++ testLine2

/-- A schema-complete payload whose `testResults` has a single entry,
i.e. the service silently dropped the second input line. -/
def droppedLinePayload : Json :=
  Json.obj [("reportDetails", Json.obj []), ("patientDetails", Json.obj []),
    ("labDetails", Json.obj []),
    ("testResults", Json.arr [mkTestEntry "HEMOGLOBIN" "15" "g/dl" "13-17"]),
    ("clinicalNotes", Json.str ""), ("abnormalParametersNotes", Json.str "")]

/-- Service reply delivering `droppedLinePayload`. -/
def droppedLineBody : String := dumps (geminiEnvelope (dumps droppedLinePayload))

/-- The qualifier scenario input line of the specification. -/
def monocytesLine : String := "MONOCYTES Lo4 % 2-10"

/-- A payload in which the service left the Lo qualifier inside the
value field. -/
def uncleanedPayload : Json :=
  Json.obj [("reportDetails", Json.obj []), ("patientDetails", Json.obj []),
    ("labDetails", Json.obj []),
    ("testResults", Json.arr [mkTestEntry "MONOCYTES" "Lo4" "%" "2-10"]),
    ("clinicalNotes", Json.str ""), ("abnormalParametersNotes", Json.str "")]

/-- Service reply delivering `uncleanedPayload`. -/
def uncleanedBody : String := dumps (geminiEnvelope (dumps uncleanedPayload))

/-- A concrete upload form with a file attached. -/
def sampleForm : UploadForm :=
  { memberId := 1, reportDate := "2024-10-17", reportType := "Blood Test",
    labName := some "Labsmart", doctor := some "Self", hasFile := true }

/-- An OCR environment in which everything works and one test line is
recognised. -/
def sampleOcrEnv : OcrEnv :=
  { fileExists := true, imageOpens := true, openErrMsg := "",
    engineAvailable := true, ocrError := none, ocrText := "HEMOGLOBIN 15 g/dl 13-17" }

/-- An OCR environment in which the image decodes but contains no
recognizable text. -/
def emptyOcrEnv : OcrEnv :=
  { fileExists := true, imageOpens := true, openErrMsg := "",
    engineAvailable := true, ocrError := none, ocrText := "" }

/-- An OCR environment in which the Tesseract engine is missing. -/
def engineDownEnv : OcrEnv :=
  { fileExists := true, imageOpens := true, openErrMsg := "",
    engineAvailable := false, ocrError := none, ocrText := "" }

/- ### Theorems -/

theorem ne_of_charAt (s t : String) (i : Nat) (h : charAt s i ≠ charAt t i) : s ≠ t :=
  fun he => h (by rw [he])

theorem decodeOptStr_encode (o : Option String) : decodeOptStr (encodeOptStr o) = some o := by
  cases o <;> rfl

theorem decodeRole_encode (r : RolePerson) : decodeRole (encodeRole r) = some r := by
  obtain ⟨n, q⟩ := r
  cases n <;> cases q <;> rfl

theorem decodePatient_encode (p : PatientDetails) : decodePatient (encodePatient p) = some p := by
  obtain ⟨n, a, s⟩ := p
  cases n <;> cases a <;> cases s <;> rfl

theorem decodeLab_encode (l : LabDetails) : decodeLab (encodeLab l) = some l := by
  obtain ⟨n, ⟨i1, i2⟩, ⟨p1, p2⟩⟩ := l
  cases n <;> cases i1 <;> cases i2 <;> cases p1 <;> cases p2 <;> rfl

theorem decodeTest_encode (t : TestResult) : decodeTest (encodeTest t) = some t := by
  obtain ⟨a, b, c, d⟩ := t
  rfl

theorem decodeTestList_map (l : List TestResult) :
    decodeTestList (l.map encodeTest) = some l := by
  induction l with
  | nil => rfl
  | cons h t ih =>
    simp only [List.map_cons, decodeTestList, decodeTest_encode, ih]

theorem decodeKVList_map (l : List (String × String)) :
    decodeKVList (l.map (fun kv => (kv.1, Json.str kv.2))) = some l := by
  induction l with
  | nil => rfl
  | cons h t ih =>
    obtain ⟨a, b⟩ := h
    simp only [List.map_cons, decodeKVList, ih]

/-- Claim C9: encoding a `StructuredReport` to its wire JSON and
decoding that JSON back yields the original report, field for field.
(Spec-modelled: the repository has no `StructuredReport` type; the
schema is modelled from the system-instruction text and the
specification.) -/
theorem structuredReport_json_roundTrip (r : StructuredReport) :
    decodeReport (encodeReport r) = some r := by
  obtain ⟨ra, rb, rc, rd, re, rf⟩ := r
  have l1 : ([("reportDetails", encodeKVs ra), ("patientDetails", encodePatient rb),
      ("labDetails", encodeLab rc), ("testResults", Json.arr (List.map encodeTest rd)),
      ("clinicalNotes", Json.str re), ("abnormalParametersNotes", Json.str rf)] :
      List (String × Json)).lookup "reportDetails" = some (encodeKVs ra) := rfl
  have l2 : ([("reportDetails", encodeKVs ra), ("patientDetails", encodePatient rb),
      ("labDetails", encodeLab rc), ("testResults", Json.arr (List.map encodeTest rd)),
      ("clinicalNotes", Json.str re), ("abnormalParametersNotes", Json.str rf)] :
      List (String × Json)).lookup "patientDetails" = some (encodePatient rb) := rfl
  have l3 : ([("reportDetails", encodeKVs ra), ("patientDetails", encodePatient rb),
      ("labDetails", encodeLab rc), ("testResults", Json.arr (List.map encodeTest rd)),
      ("clinicalNotes", Json.str re), ("abnormalParametersNotes", Json.str rf)] :
      List (String × Json)).lookup "labDetails" = some (encodeLab rc) := rfl
  have l4 : ([("reportDetails", encodeKVs ra), ("patientDetails", encodePatient rb),
      ("labDetails", encodeLab rc), ("testResults", Json.arr (List.map encodeTest rd)),
      ("clinicalNotes", Json.str re), ("abnormalParametersNotes", Json.str rf)] :
      List (String × Json)).lookup "testResults" = some (Json.arr (List.map encodeTest rd)) := rfl
  have l5 : ([("reportDetails", encodeKVs ra), ("patientDetails", encodePatient rb),
      ("labDetails", encodeLab rc), ("testResults", Json.arr (List.map encodeTest rd)),
      ("clinicalNotes", Json.str re), ("abnormalParametersNotes", Json.str rf)] :
      List (String × Json)).lookup "clinicalNotes" = some (Json.str re) := rfl
  have l6 : ([("reportDetails", encodeKVs ra), ("patientDetails", encodePatient rb),
      ("labDetails", encodeLab rc), ("testResults", Json.arr (List.map encodeTest rd)),
      ("clinicalNotes", Json.str re), ("abnormalParametersNotes", Json.str rf)] :
      List (String × Json)).lookup "abnormalParametersNotes" = some (Json.str rf) := rfl
  simp only [encodeReport, decodeReport, l1, l2, l3, l4, l5, l6, decodeKVs,
    decodeKVList_map, decodePatient_encode, decodeLab_encode, decodeTestList_map, decodeStr]
  simp only [encodeKVs, decodeKVList_map]

/-- Claim C1 counterexample: three different failure kinds — a transport
exception, an unparseable response body (MalformedResponse territory),
and a 5xx status — all produce the very same return value `None`
(`GenResult.ret none`): the failure is collapsed into an
undifferentiated value and carries no distinguishing sub-kind, so no
`StructuringError` with a sub-kind is ever reported to the caller. -/
theorem structuring_failures_collapsed :
    generate_report_json "HEMOGLOBIN 15 g/dl 13-17" (SvcOutcome.exn "ConnectTimeout")
      = GenResult.ret none
    ∧ generate_report_json "HEMOGLOBIN 15 g/dl 13-17"
        (SvcOutcome.resp 200 "the service replied with prose, not JSON")
      = GenResult.ret none
    ∧ generate_report_json "HEMOGLOBIN 15 g/dl 13-17" (SvcOutcome.resp 503 "")
      = GenResult.ret none :=
  ⟨rfl, rfl, rfl⟩

/-- Claim C1 (amended): every handled structuring failure — a transport
exception (timeouts included), a 4xx/5xx status, a body that does not
parse as JSON, a body whose candidates path is missing, or generated
text that does not parse as JSON — returns the single undifferentiated
value `None`; the distinguishing information is only printed to the
console and never reaches the caller. (A non-2xx status outside
400–599 is not even treated as a failure, since `raise_for_status`
raises only for 4xx/5xx.) -/
theorem structuring_failure_always_none (t m body : String) (status : Nat) :
    generate_report_json t (SvcOutcome.exn m) = GenResult.ret none
    ∧ (400 ≤ status ∧ status ≤ 599 →
        generate_report_json t (SvcOutcome.resp status body) = GenResult.ret none)
    ∧ (¬(400 ≤ status ∧ status ≤ 599) → parseJson body = none →
        generate_report_json t (SvcOutcome.resp status body) = GenResult.ret none)
    ∧ (∀ doc, ¬(400 ≤ status ∧ status ≤ 599) → parseJson body = some doc →
        candidateText doc = Lookup.keyErr →
        generate_report_json t (SvcOutcome.resp status body) = GenResult.ret none)
    ∧ (∀ doc raw, ¬(400 ≤ status ∧ status ≤ 599) → parseJson body = some doc →
        candidateText doc = Lookup.found (Json.str raw) → parseJson raw = none →
        generate_report_json t (SvcOutcome.resp status body) = GenResult.ret none) := by
  refine ⟨rfl, ?_, ?_, ?_, ?_⟩
  · intro h
    simp only [generate_report_json, if_pos h]
  · intro h hb
    simp only [generate_report_json, if_neg h, hb]
  · intro doc h hb hc
    simp only [generate_report_json, if_neg h, hb, hc]
  · intro doc raw h hb hc hr
    simp only [generate_report_json, if_neg h, hb, hc, hr]

/-- Claim C1 amended-theorem witness at concrete service outcomes. -/
theorem structuring_failure_always_none_sample :
    generate_report_json "txt" (SvcOutcome.exn "ReadTimeout") = GenResult.ret none
    ∧ generate_report_json "txt" (SvcOutcome.resp 500 "x") = GenResult.ret none
    ∧ generate_report_json "txt" (SvcOutcome.resp 200 "x") = GenResult.ret none
    ∧ generate_report_json "txt" (SvcOutcome.resp 200 noCandidatesBody) = GenResult.ret none
    ∧ generate_report_json "txt" (SvcOutcome.resp 200 proseInnerBody) = GenResult.ret none :=
  ⟨(structuring_failure_always_none "txt" "ReadTimeout" "x" 500).1,
   (structuring_failure_always_none "txt" "ReadTimeout" "x" 500).2.1 (by decide),
   (structuring_failure_always_none "txt" "ReadTimeout" "x" 200).2.2.1 (by decide) rfl,
   (structuring_failure_always_none "txt" "ReadTimeout" noCandidatesBody 200).2.2.2.1
     (Json.obj [("promptFeedback", Json.str "blocked")]) (by decide) rfl rfl,
   (structuring_failure_always_none "txt" "ReadTimeout" proseInnerBody 200).2.2.2.2
     (geminiEnvelope "The model replied with plain prose") "The model replied with plain prose"
     (by decide) rfl rfl rfl⟩

/-- Claim C3 counterexample: a service reply whose inner payload has
none of the six required top-level keys is returned as a success, not
rejected: no `SchemaViolation` failure exists in the code (the
spec-modelled decoder confirms the payload is missing required keys). -/
theorem missing_keys_not_rejected :
    generate_report_json "REPORT TEXT" (SvcOutcome.resp 200 missingKeysBody)
      = GenResult.ret (some missingKeysPayload)
    ∧ decodeReport missingKeysPayload = none :=
  ⟨rfl, rfl⟩

/-- Claim C3 (amended): `generate_report_json` performs no top-level
key validation at all — whenever transport, body parse and the
candidates path succeed, the parsed inner value is returned verbatim,
even when required keys are missing; keys beyond the six are ignored
only because every key is ignored. -/
theorem no_schema_validation (t body raw : String) (status : Nat) (doc v : Json)
    (h : ¬(400 ≤ status ∧ status ≤ 599))
    (hb : parseJson body = some doc)
    (hc : candidateText doc = Lookup.found (Json.str raw))
    (hr : parseJson raw = some v)
    (_hmiss : decodeReport v = none) :
    generate_report_json t (SvcOutcome.resp status body) = GenResult.ret (some v) := by
  simp only [generate_report_json, if_neg h, hb, hc, hr]

/-- Claim C3 amended-theorem witness at the concrete missing-keys reply. -/
theorem no_schema_validation_sample :
    generate_report_json "REPORT TEXT" (SvcOutcome.resp 200 missingKeysBody)
      = GenResult.ret (some missingKeysPayload) :=
  no_schema_validation "REPORT TEXT" missingKeysBody (dumps missingKeysPayload) 200
    (geminiEnvelope (dumps missingKeysPayload)) missingKeysPayload
    (by decide) rfl rfl rfl rfl

/-- Claim C4: when the image file exists and decodes but the Tesseract
engine is unavailable, `extract_text_from_image` yields exactly the
dedicated engine-unavailable message — a failure kind distinguishable
from the generic-exception message and from the file-not-found message
for every possible exception text. (When the image itself fails to
decode the engine is never consulted, so the claim's precondition of a
decodable input is modelled by `imageOpens = true`.) -/
theorem engine_unavailable_distinguished (p : String) (env : OcrEnv)
    (h1 : env.fileExists = true) (h2 : env.imageOpens = true)
    (h3 : env.engineAvailable = false) :
    extract_text_from_image p env = engineUnavailableMsg
    ∧ (∀ e, engineUnavailableMsg ≠ unexpectedMsg e)
    ∧ (∀ q, engineUnavailableMsg ≠ fileNotFoundMsg q) := by
  refine ⟨?_, ?_, ?_⟩
  · simp [extract_text_from_image, h1, h2, h3]
  · intro e
    apply ne_of_charAt _ _ 0
    intro h
    have h4 : (some 'E' : Option Char) = some 'A' := h
    exact absurd h4 (by decide)
  · intro q
    apply ne_of_charAt _ _ 7
    intro h
    have h4 : (some 'T' : Option Char) = some 'I' := h
    exact absurd h4 (by decide)

/-- Claim C4 witness: concrete engine-unavailable environment. -/
theorem engine_unavailable_distinguished_sample :
    extract_text_from_image "report.png" engineDownEnv = engineUnavailableMsg :=
  (engine_unavailable_distinguished "report.png" engineDownEnv rfl rfl rfl).1

set_option maxRecDepth 16384 in
/-- Claim C5 counterexample: the extracted text has two recognizable
NAME VALUE UNIT RANGE lines, yet the service reply carries a single
`testResults` entry; `generate_report_json` returns it unchanged as a
success — the second line is silently dropped, so lines do not map
one-to-one onto entries. -/
theorem dropped_line_not_detected :
    lineCount twoLineText = 2
    ∧ generate_report_json twoLineText (SvcOutcome.resp 200 droppedLineBody)
        = GenResult.ret (some droppedLinePayload)
    ∧ (testResultsOf droppedLinePayload).map List.length = some 1 :=
  ⟨rfl, rfl, rfl⟩

/-- Claim C5 (amended): the code enforces no line-to-entry mapping at
all: the result of `generate_report_json` is a function of the service
reply alone, independent of the extracted text (which enters only the
outgoing `requestPayload`); the per-line mapping and its order are
merely requested in the fixed instruction text. -/
theorem structuring_result_independent_of_text (t1 t2 : String) (svc : SvcOutcome) :
    generate_report_json t1 svc = generate_report_json t2 svc := rfl

set_option maxRecDepth 16384 in
/-- Claim C6 counterexample: for the specification's own scenario line
"MONOCYTES Lo4 % 2-10", when the service leaves the qualifier inside
the value field the returned entry's value is "Lo4", not "4": no code
strips the qualifier into the test name (the cleaning rule exists only
inside the instruction text sent to the service). -/
theorem qualifier_not_stripped :
    generate_report_json monocytesLine (SvcOutcome.resp 200 uncleanedBody)
      = GenResult.ret (some uncleanedPayload)
    ∧ firstTestValue uncleanedPayload = some (Json.str "Lo4")
    ∧ Json.str "Lo4" ≠ Json.str "4" := by
  refine ⟨rfl, rfl, ?_⟩
  intro h
  injection h with h2
  exact absurd h2 (by decide)

/-- Claim C6 (amended): there is no qualifier-stripping normalization
in the code: whatever string the service puts into a value field is
returned verbatim (so "Lo4" stays "Lo4" and is never rewritten to "4"
with the qualifier folded into the test name); the only part of the
claim the code satisfies is that a qualifier can never make this path
fail. -/
theorem value_field_passthrough (t body raw s : String) (status : Nat) (doc rep : Json)
    (h : ¬(400 ≤ status ∧ status ≤ 599))
    (hb : parseJson body = some doc)
    (hc : candidateText doc = Lookup.found (Json.str raw))
    (hr : parseJson raw = some rep)
    (hv : firstTestValue rep = some (Json.str s)) :
    ∃ rep2, generate_report_json t (SvcOutcome.resp status body) = GenResult.ret (some rep2)
      ∧ firstTestValue rep2 = some (Json.str s) :=
  ⟨rep, by simp only [generate_report_json, if_neg h, hb, hc, hr], hv⟩

set_option maxRecDepth 16384 in
/-- Claim C6 amended-theorem witness at the concrete uncleaned reply. -/
theorem value_field_passthrough_sample :
    ∃ rep2, generate_report_json monocytesLine (SvcOutcome.resp 200 uncleanedBody)
      = GenResult.ret (some rep2) ∧ firstTestValue rep2 = some (Json.str "Lo4") :=
  value_field_passthrough monocytesLine uncleanedBody (dumps uncleanedPayload) "Lo4" 200
    (geminiEnvelope (dumps uncleanedPayload)) uncleanedPayload
    (by decide) rfl rfl rfl rfl

/-- Claim C7 counterexample: the `requests.post` call of
`LLM.py:parse_lab_report` passes no `timeout` argument, so it is not
true that every structuring invocation's request carries an explicit
timeout upper bound. -/
theorem parse_lab_report_has_no_timeout : parse_lab_report_timeout = none := rfl

/-- Claim C7 (amended): each structuring function performs a single
`requests.post` round trip (the embedding consumes exactly one
`SvcOutcome`); `generate_report_json` passes the explicit timeout 30
and handles an elapsed timeout exactly like any other transport
exception — every `RequestException` yields the same `None`; but
`parse_lab_report`, with the identical response handling, passes no
timeout at all. -/
theorem single_request_timeout_handling :
    generate_report_json_timeout = some 30
    ∧ parse_lab_report_timeout = none
    ∧ (∀ t m1 m2, generate_report_json t (SvcOutcome.exn m1)
        = generate_report_json t (SvcOutcome.exn m2))
    ∧ (∀ t m, generate_report_json t (SvcOutcome.exn m) = GenResult.ret none)
    ∧ (∀ t svc, parse_lab_report t svc = generate_report_json t svc) :=
  ⟨rfl, rfl, fun _ _ _ => rfl, fun _ _ => rfl, fun _ _ => rfl⟩

/-- Claim C2: whenever OCR produced a text on which structuring is
attempted and structuring fails (for any reason, including a non-JSON
service reply), the endpoint still succeeds and persists a row carrying
the extracted text exactly as extraction returned it, with a NULL
structured-JSON column and no mock data written — the text is neither
discarded nor replaced. -/
theorem upload_preserves_text_on_failure (form : UploadForm) (p : String) (env : OcrEnv)
    (svc : SvcOutcome)
    (h1 : form.hasFile = true)
    (h2 : structuringCondition (extract_text_from_file p env) = true)
    (h3 : generate_report_json (extract_text_from_file p env) svc = GenResult.ret none) :
    (uploadRow (upload_report form p env svc)).map ReportRow.extractedText
      = some (extract_text_from_file p env)
    ∧ (uploadRow (upload_report form p env svc)).map ReportRow.reportJson = some none
    ∧ (uploadRow (upload_report form p env svc)).map ReportRow.parsedCol = some none := by
  refine ⟨?_, ?_, ?_⟩ <;> simp [upload_report, uploadRow, h1, h2, h3]

/-- Claim C2 witness: OCR succeeds on one test line, the service times
out; the persisted row still carries the extracted text. -/
theorem upload_preserves_text_on_failure_sample :
    (uploadRow (upload_report sampleForm "uploads/r1.png" sampleOcrEnv
        (SvcOutcome.exn "ReadTimeout"))).map ReportRow.extractedText
      = some (extract_text_from_file "uploads/r1.png" sampleOcrEnv)
    ∧ (uploadRow (upload_report sampleForm "uploads/r1.png" sampleOcrEnv
        (SvcOutcome.exn "ReadTimeout"))).map ReportRow.reportJson = some none
    ∧ (uploadRow (upload_report sampleForm "uploads/r1.png" sampleOcrEnv
        (SvcOutcome.exn "ReadTimeout"))).map ReportRow.parsedCol = some none :=
  upload_preserves_text_on_failure sampleForm "uploads/r1.png" sampleOcrEnv
    (SvcOutcome.exn "ReadTimeout") rfl rfl rfl

/-- Claim C8: when extraction succeeds with an empty string, the upload
endpoint does not treat it as an error: it returns a persisted row (a
non-failure outcome) carrying the empty extracted text, with
structuring skipped and a NULL structured-JSON column. -/
theorem empty_text_not_error (form : UploadForm) (p : String) (env : OcrEnv)
    (svc : SvcOutcome)
    (h1 : form.hasFile = true)
    (h2 : extract_text_from_file p env = "") :
    uploadRow (upload_report form p env svc)
      = some { memberId := form.memberId, date := form.reportDate,
               reportType := form.reportType, lab := form.labName,
               doctor := form.doctor, filePath := p,
               extractedText := "", reportJson := none,
               parsedCol := none, notes := none } := by
  have h3 : structuringCondition "" = false := rfl
  simp [upload_report, uploadRow, h1, h2, h3]

/-- Claim C8 witness: concrete empty-text OCR environment. -/
theorem empty_text_not_error_sample :
    uploadRow (upload_report sampleForm "uploads/r2.png" emptyOcrEnv (SvcOutcome.exn "unused"))
      = some { memberId := 1, date := "2024-10-17", reportType := "Blood Test",
               lab := some "Labsmart", doctor := some "Self", filePath := "uploads/r2.png",
               extractedText := "", reportJson := none,
               parsedCol := none, notes := none } :=
  empty_text_not_error sampleForm "uploads/r2.png" emptyOcrEnv (SvcOutcome.exn "unused") rfl rfl

/-- Claim C10: structuring is invoked exactly when the extracted text is
nonempty and does not start with the literal "Error": when the guard is
false the persisted row stores NULL structured JSON and the extraction
output verbatim (extraction error messages included, since they are the
extracted text); when the guard is true and structuring returns a truthy
value j the row stores json.dumps(j); and whenever structuring was
skipped or returned None the structured-JSON column is NULL while the
extracted-text column still records the extraction output. -/
theorem structuring_guard_and_persistence (form : UploadForm) (p : String) (env : OcrEnv)
    (svc : SvcOutcome)
    (h1 : form.hasFile = true) :
    (structuringCondition (extract_text_from_file p env) = false →
      uploadRow (upload_report form p env svc)
        = some { memberId := form.memberId, date := form.reportDate,
                 reportType := form.reportType, lab := form.labName,
                 doctor := form.doctor, filePath := p,
                 extractedText := extract_text_from_file p env, reportJson := none,
                 parsedCol := none, notes := none })
    ∧ (∀ j, structuringCondition (extract_text_from_file p env) = true →
        generate_report_json (extract_text_from_file p env) svc = GenResult.ret (some j) →
        pyTruthy j = true →
        uploadRow (upload_report form p env svc)
          = some { memberId := form.memberId, date := form.reportDate,
                   reportType := form.reportType, lab := form.labName,
                   doctor := form.doctor, filePath := p,
                   extractedText := extract_text_from_file p env,
                   reportJson := some (dumps j),
                   parsedCol := none, notes := none })
    ∧ (generate_report_json (extract_text_from_file p env) svc = GenResult.ret none →
        (uploadRow (upload_report form p env svc)).map ReportRow.reportJson = some none
        ∧ (uploadRow (upload_report form p env svc)).map ReportRow.extractedText
            = some (extract_text_from_file p env)) := by
  refine ⟨?_, ?_, ?_⟩
  · intro hc
    simp [upload_report, uploadRow, h1, hc]
  · intro j hc hg hj
    simp [upload_report, uploadRow, h1, hc, hg, hj]
  · intro hg
    cases hsc : structuringCondition (extract_text_from_file p env) with
    | false => constructor <;> simp [upload_report, uploadRow, h1, hsc]
    | true => constructor <;> simp [upload_report, uploadRow, h1, hsc, hg]

/-- Claim C10 witness: the OCR engine is missing, so extraction returns
an error message starting with "Error"; the guard skips structuring,
the message itself is stored as the extracted text and the
structured-JSON column is NULL. -/
theorem structuring_guard_and_persistence_sample :
    uploadRow (upload_report sampleForm "uploads/r3.png" engineDownEnv (SvcOutcome.exn "unused"))
      = some { memberId := 1, date := "2024-10-17", reportType := "Blood Test",
               lab := some "Labsmart", doctor := some "Self", filePath := "uploads/r3.png",
               extractedText := engineUnavailableMsg, reportJson := none,
               parsedCol := none, notes := none } :=
  (structuring_guard_and_persistence sampleForm "uploads/r3.png" engineDownEnv
    (SvcOutcome.exn "unused") rfl).1 rfl
